import Mathlib

/-!
Verification of the Policy & Reimbursement rule evaluator
(`app/engines/policy_reimbursement.py`).

The evaluator is embedded shallowly:

* JSON policy tables become association lists keyed by drug name.
* Python string operations (`str.lower`, substring `in`, list membership
  `in`, `sorted`, `",".join`) become executable Lean functions on
  `String`/`List Char`.
* Money and percentages (`float` in the source) are modelled as `ℚ`; the
  rendering of a number inside a reason code (`f"...:{max_amount}"`)
  is `toString : ℚ → String`, which agrees with Python on the integral
  amounts the policies use.
* Each evaluator returns a `CardEnvelope` value; the report generator,
  which can raise a pydantic `ValidationError` when it rebuilds typed
  cards from dumped dicts, returns `Except String CardEnvelope`.
-/

namespace PolicyEngine

/-- Python `str.lower` (ASCII case folding suffices for the data at hand). -/
def lowerStr (s : String) : String := ⟨s.data.map Char.toLower⟩

/-- Does the list start with the given needle? (helper for substring test). -/
def hasPre : List Char → List Char → Bool
  | [], _ => true
  | _ :: _, [] => false
  | a :: p, b :: s => a == b && hasPre p s

/-- Does the needle occur as a contiguous sublist? (helper for substring test). -/
def hasSub (needle : List Char) : List Char → Bool
  | [] => needle.isEmpty
  | b :: s => hasPre needle (b :: s) || hasSub needle s

/-- Python substring test: `needle in hay` on `str`. -/
def strContains (hay needle : String) : Bool := hasSub needle.data hay.data

/-- Python dict lookup on a string-keyed mapping (keys are unique in JSON). -/
def lookup {α : Type} (m : List (String × α)) (k : String) : Option α :=
  (m.find? (fun p => p.1 == k)).map (·.2)

/-- A trial policy record (one entry of `trial_policies` in policies.json). -/
structure TrialPolicy where
  min_age : Int
  max_age : Int
  eligible_diagnoses : List String
  required_prior_treatments : List String
  exclusion_criteria : List String
  required_documents : List String
  deriving Repr, DecidableEq

/-- One value of the `insurance_coverage` mapping. The persisted policy
numbers are JSON integers (the reason code renders `1000`, not `1000.0`);
request amounts stay rational. -/
structure CoverageInfo where
  coverage_percent : Int
  max_amount : Int
  deriving Repr, DecidableEq

/-- A reimbursement policy record (one entry of `reimbursement_policies`). -/
structure ReimbPolicy where
  eligible_diagnoses : List String
  insurance_coverage : List (String × CoverageInfo)
  deriving Repr, DecidableEq

/-- The whole policies.json document. -/
structure Policies where
  trial_policies : List (String × TrialPolicy)
  reimbursement_policies : List (String × ReimbPolicy)
  deriving Repr, DecidableEq

/-- `RefusalCard` of `app/core/schemas.py`. -/
structure RefusalCard where
  blocked : Bool
  reason : String
  violation_type : String
  deriving Repr, DecidableEq

/-- `TrialEnablementCard` of `app/core/schemas.py`. -/
structure TrialEnablementCard where
  drug_name : String
  status : String
  reason_codes : List String
  required_documents : List String
  exclusion_flags : List String
  deriving Repr, DecidableEq

/-- `ReimbursementStatusCard` of `app/core/schemas.py`. -/
@[ext]
structure ReimbursementStatusCard where
  drug_name : String
  status : String
  coverage_percent : ℚ
  approved_amount : ℚ
  reason_codes : List String
  deriving Repr, DecidableEq

/-- `PolicyReportCard` of `app/core/schemas.py`. -/
structure PolicyReportCard where
  trial_eligibility : TrialEnablementCard
  reimbursement : ReimbursementStatusCard
  generated_at : String
  summary : String
  deriving Repr, DecidableEq

/-- The possible payloads of a `CardEnvelope` produced by this engine. -/
inductive Card where
  | refusal (c : RefusalCard)
  | trial (c : TrialEnablementCard)
  | reimb (c : ReimbursementStatusCard)
  | report (c : PolicyReportCard)
  deriving Repr, DecidableEq

/-- `CardEnvelope` of `app/core/schemas.py`. -/
structure CardEnvelope where
  card_type : String
  card : Card
  deriving Repr, DecidableEq

/-- Insert a string into a sorted list, keeping it sorted. -/
def insertSorted (x : String) : List String → List String
  | [] => [x]
  | y :: ys => if x ≤ y then x :: y :: ys else y :: insertSorted x ys

/-- Insertion sort on strings: the model of Python `sorted` (lexicographic by
code point). -/
def sortStrings : List String → List String
  | [] => []
  | x :: xs => insertSorted x (sortStrings xs)

/-- Python `",".join(sorted(required − provided))` operand: the sorted set
difference of prior-treatment identifiers (`set` semantics: deduplicated). -/
def missingPrior (required provided : List String) : List String :=
  sortStrings ((required.filter (fun t => !provided.contains t)).dedup)

/-- The exclusion-criteria test of `_evaluate_trial_eligibility`:
`excl.lower() in diagnosis.lower() or excl.lower() in [p.lower() for p in prior_treatments]`.
Note the second disjunct is Python list membership, i.e. case-insensitive
equality with some entry, not a substring test. -/
def matchesExclusion (diagnosis : String) (prior_treatments : List String)
    (excl : String) : Bool :=
  strContains (lowerStr diagnosis) (lowerStr excl)
    || (prior_treatments.map lowerStr).contains (lowerStr excl)

/-- `_evaluate_trial_eligibility` of `app/engines/policy_reimbursement.py`,
as a function of the loaded `trial_policies` table. -/
def evaluate_trial_eligibility (trial_policies : List (String × TrialPolicy))
    (drug_name diagnosis : String) (patient_age : Int)
    (prior_treatments : List String) : CardEnvelope :=
  match lookup trial_policies drug_name with
  | none =>
      { card_type := "refusal_card"
        card := .refusal
          { blocked := true
            reason := "No trial policy found for \x27" ++ drug_name ++ "\x27."
            violation_type := "no_policy" } }
  | some policy =>
      let reason0 : List String := []
      let reason1 :=
        if patient_age < policy.min_age then
          reason0 ++ ["AGE_BELOW_MIN:" ++ toString policy.min_age]
        else reason0
      let reason2 :=
        if patient_age > policy.max_age then
          reason1 ++ ["AGE_ABOVE_MAX:" ++ toString policy.max_age]
        else reason1
      let reason3 :=
        if !policy.eligible_diagnoses.contains diagnosis then
          reason2 ++ ["DIAGNOSIS_NOT_ELIGIBLE:" ++ diagnosis]
        else reason2
      let missing := missingPrior policy.required_prior_treatments prior_treatments
      let reason4 :=
        if !missing.isEmpty then
          reason3 ++ ["MISSING_PRIOR_TREATMENT:" ++ String.intercalate "," missing]
        else reason3
      let exclusion_flags :=
        policy.exclusion_criteria.filter (matchesExclusion diagnosis prior_treatments)
      let reason5 :=
        reason4 ++ exclusion_flags.map (fun e => "EXCLUSION_CRITERIA:" ++ e)
      let status := if !reason5.isEmpty then "NOT_APPROVED" else "APPROVED"
      { card_type := "trial_enablement_card"
        card := .trial
          { drug_name := drug_name
            status := status
            reason_codes := reason5
            required_documents := policy.required_documents
            exclusion_flags := exclusion_flags } }

/-- The coverage resolution of `evaluate_reimbursement` step 2: the pair
`(coverage_percent, max_amount)` after the `insurance_coverage` lookup.
Python tests `if not coverage_info:`; a well-typed coverage dict always has
its two keys and is therefore non-empty (truthy), so the falsy branch is
exactly the absent-key branch. -/
def resolvedCoverage (policy : ReimbPolicy) (insurance_type : String) :
    Int × Int :=
  match lookup policy.insurance_coverage insurance_type with
  | none => (0, 0)
  | some ci => (ci.coverage_percent, ci.max_amount)

/-- `evaluate_reimbursement` of `app/engines/policy_reimbursement.py`,
as a function of the loaded `reimbursement_policies` table. -/
def evaluate_reimbursement (reimb_policies : List (String × ReimbPolicy))
    (drug_name diagnosis insurance_type : String) (claim_amount : ℚ) :
    CardEnvelope :=
  match lookup reimb_policies drug_name with
  | none =>
      { card_type := "refusal_card"
        card := .refusal
          { blocked := true
            reason := "No reimbursement policy found for \x27" ++ drug_name ++ "\x27."
            violation_type := "no_policy" } }
  | some policy =>
      let reason0 : List String := []
      let reason1 :=
        if !policy.eligible_diagnoses.contains diagnosis then
          reason0 ++ ["DIAGNOSIS_NOT_COVERED:" ++ diagnosis]
        else reason0
      let reason2 :=
        if (lookup policy.insurance_coverage insurance_type).isNone then
          reason1 ++ ["INSURANCE_TYPE_UNKNOWN:" ++ insurance_type]
        else reason1
      let coverage_percent : Int := (resolvedCoverage policy insurance_type).1
      let max_amount : Int := (resolvedCoverage policy insurance_type).2
      let covered_amount : ℚ := claim_amount * ((coverage_percent : ℚ) / 100)
      let approved_amount : ℚ :=
        if covered_amount ≤ (max_amount : ℚ) then covered_amount
        else (max_amount : ℚ)
      let reason3 :=
        if coverage_percent = 0 then reason2 ++ ["NO_COVERAGE"] else reason2
      let reason4 :=
        if claim_amount > (max_amount : ℚ) ∧ max_amount > 0 then
          reason3 ++ ["CLAIM_EXCEEDS_MAX:" ++ toString max_amount]
        else reason3
      let status :=
        if coverage_percent = 0
            ∨ reason4.any (fun rc => strContains rc "DIAGNOSIS_NOT_COVERED") then
          "NOT_APPROVED"
        else if !reason4.isEmpty then "CONDITIONAL"
        else "APPROVED"
      { card_type := "reimbursement_status_card"
        card := .reimb
          { drug_name := drug_name
            status := status
            coverage_percent := (coverage_percent : ℚ)
            approved_amount := approved_amount
            reason_codes := reason4 } }

/-- The pipe-joined summary string built by `generate_report`. -/
def report_summary (drug_name : String) (tc : TrialEnablementCard)
    (rc : ReimbursementStatusCard) : String :=
  String.intercalate " | "
    ["Drug: " ++ drug_name,
     "Trial eligibility: " ++ tc.status,
     "Reimbursement: " ++ rc.status]

/-- `generate_report` of `app/engines/policy_reimbursement.py`.
The generation timestamp is passed in by the caller (`now`).
Rebuilding `TrialEnablementCard(**trial_card)` / `ReimbursementStatusCard(**reimb_card)`
from a dumped refusal dict raises a pydantic `ValidationError`; that raised
exception is the `Except.error` branch. -/
def generate_report (policies : Policies) (drug_name diagnosis : String)
    (patient_age : Int) (insurance_type : String) (claim_amount : ℚ)
    (prior_treatments : List String) (now : String) :
    Except String CardEnvelope :=
  if (lookup policies.trial_policies drug_name).isNone
      ∧ (lookup policies.reimbursement_policies drug_name).isNone then
    .ok
      { card_type := "refusal_card"
        card := .refusal
          { blocked := true
            reason := "No policies found for \x27" ++ drug_name ++ "\x27."
            violation_type := "no_policy" } }
  else
    let trial_result :=
      evaluate_trial_eligibility policies.trial_policies drug_name diagnosis
        patient_age prior_treatments
    let reimb_result :=
      evaluate_reimbursement policies.reimbursement_policies drug_name diagnosis
        insurance_type claim_amount
    match trial_result.card, reimb_result.card with
    | .trial tc, .reimb rc =>
        .ok
          { card_type := "policy_report_card"
            card := .report
              { trial_eligibility := tc
                reimbursement := rc
                generated_at := now
                summary := report_summary drug_name tc rc } }
    | _, _ => .error "ValidationError"

/-- `_load_policies`: the module-level cache `_policies` is empty (falsy) until
the first call reads the JSON file; afterwards every call returns the cached
document. The file content is a parameter; the cache is explicit state. -/
def load_policies (fileContent : Policies) :
    Option Policies → Policies × Option Policies
  | none => (fileContent, some fileContent)
  | some cached => (cached, some cached)

/-- `_evaluate_trial_eligibility` including its `_load_policies()` call:
explicit state passing for the module-level cache. -/
def evaluate_trial_stateful (fileContent : Policies) (cache : Option Policies)
    (drug_name diagnosis : String) (patient_age : Int)
    (prior_treatments : List String) : CardEnvelope × Option Policies :=
  let (policies, cache2) := load_policies fileContent cache
  (evaluate_trial_eligibility policies.trial_policies drug_name diagnosis
    patient_age prior_treatments, cache2)

/-- `evaluate_reimbursement` including its `_load_policies()` call:
explicit state passing for the module-level cache. -/
def evaluate_reimbursement_stateful (fileContent : Policies)
    (cache : Option Policies) (drug_name diagnosis insurance_type : String)
    (claim_amount : ℚ) : CardEnvelope × Option Policies :=
  let (policies, cache2) := load_policies fileContent cache
  (evaluate_reimbursement policies.reimbursement_policies drug_name diagnosis
    insurance_type claim_amount, cache2)

/-! ### Helper lemmas about the string primitives -/

theorem hasPre_iff (p s : List Char) : hasPre p s = true ↔ ∃ t, s = p ++ t := by
  induction p generalizing s with
  | nil => simp [hasPre]
  | cons a p ih =>
      cases s with
      | nil => simp [hasPre]
      | cons b s =>
          simp only [hasPre, Bool.and_eq_true, beq_iff_eq, ih, List.cons_append,
            List.cons.injEq]
          constructor
          · rintro ⟨rfl, t, rfl⟩
            exact ⟨t, rfl, rfl⟩
          · rintro ⟨t, rfl, rfl⟩
            exact ⟨rfl, t, rfl⟩

theorem hasSub_iff (n h : List Char) :
    hasSub n h = true ↔ ∃ l r, h = l ++ n ++ r := by
  induction h with
  | nil =>
      simp only [hasSub, List.isEmpty_iff]
      constructor
      · rintro rfl
        exact ⟨[], [], rfl⟩
      · rintro ⟨l, r, hlr⟩
        rcases List.append_eq_nil.mp (List.append_eq_nil.mp hlr.symm).1 with ⟨-, h2⟩
        exact h2
  | cons b s ih =>
      simp only [hasSub, Bool.or_eq_true, hasPre_iff, ih]
      constructor
      · rintro (⟨t, ht⟩ | ⟨l, r, hlr⟩)
        · exact ⟨[], t, by simp [ht]⟩
        · exact ⟨b :: l, r, by simp [hlr]⟩
      · rintro ⟨l, r, hlr⟩
        cases l with
        | nil =>
            left
            exact ⟨r, by simpa using hlr⟩
        | cons x l =>
            right
            rcases List.cons.injEq .. ▸ hlr with ⟨-, h2⟩
            exact ⟨l, r, by simpa using h2⟩

/-- `strContains hay needle` is exactly substring occurrence. -/
theorem strContains_iff (hay needle : String) :
    strContains hay needle = true ↔
      ∃ l r, hay.data = l ++ needle.data ++ r := by
  unfold strContains
  exact hasSub_iff needle.data hay.data

theorem String.append_left_cancel_data {a b c : String}
    (h : a ++ b = a ++ c) : b = c := by
  have h2 := congrArg String.data h
  rw [String.data_append, String.data_append] at h2
  exact String.ext (List.append_cancel_left h2)

/-- Two strings with different first characters differ, whatever follows. -/
theorem ne_append_of_head_ne {p q : String} (s t : String)
    (cp cq : Char) (lp lq : List Char)
    (hp : p.data = cp :: lp) (hq : q.data = cq :: lq) (h : cp ≠ cq) :
    p ++ s ≠ q ++ t := by
  intro he
  have h2 := congrArg String.data he
  rw [String.data_append, String.data_append, hp, hq] at h2
  exact h (List.cons.injEq .. ▸ h2).1

/-! ### Shared description lemmas for the two evaluators -/

/-- Field-level description of the trial evaluation when a policy is found. -/
theorem trial_eval_fields (store : List (String × TrialPolicy))
    (drug diagnosis : String) (age : Int) (prior : List String)
    (policy : TrialPolicy) (hfind : lookup store drug = some policy) :
    ∃ tc : TrialEnablementCard,
      (evaluate_trial_eligibility store drug diagnosis age prior) =
        { card_type := "trial_enablement_card", card := Card.trial tc } ∧
      tc.drug_name = drug ∧
      tc.required_documents = policy.required_documents ∧
      tc.exclusion_flags =
        policy.exclusion_criteria.filter (matchesExclusion diagnosis prior) ∧
      tc.reason_codes =
        (if age < policy.min_age then
          ["AGE_BELOW_MIN:" ++ toString policy.min_age] else [])
        ++ (if age > policy.max_age then
          ["AGE_ABOVE_MAX:" ++ toString policy.max_age] else [])
        ++ (if diagnosis ∈ policy.eligible_diagnoses then []
            else ["DIAGNOSIS_NOT_ELIGIBLE:" ++ diagnosis])
        ++ (if missingPrior policy.required_prior_treatments prior = [] then []
            else ["MISSING_PRIOR_TREATMENT:"
              ++ String.intercalate ","
                  (missingPrior policy.required_prior_treatments prior)])
        ++ tc.exclusion_flags.map (fun e => "EXCLUSION_CRITERIA:" ++ e) ∧
      tc.status = (if tc.reason_codes = [] then "APPROVED" else "NOT_APPROVED") := by
  simp only [evaluate_trial_eligibility, hfind]
  refine ⟨_, rfl, rfl, rfl, rfl, ?_, ?_⟩
  all_goals split_ifs <;> simp_all
  all_goals
    rename_i hex hall
    obtain ⟨x, hx, hmx⟩ := hex
    have hfa := hall x hx
    simp [hfa] at hmx

theorem insertSorted_ne_nil (x : String) (l : List String) :
    insertSorted x l ≠ [] := by
  cases l with
  | nil => simp [insertSorted]
  | cons y ys =>
      simp only [insertSorted]
      split <;> simp

theorem sortStrings_eq_nil_iff (l : List String) :
    sortStrings l = [] ↔ l = [] := by
  cases l with
  | nil => simp [sortStrings]
  | cons x xs => simp [sortStrings, insertSorted_ne_nil]

/-- The set difference `required − provided` is empty iff every required
treatment was provided. -/
theorem missingPrior_eq_nil_iff (required provided : List String) :
    missingPrior required provided = [] ↔ ∀ r ∈ required, r ∈ provided := by
  unfold missingPrior
  rw [sortStrings_eq_nil_iff, List.dedup_eq_nil, List.filter_eq_nil_iff]
  simp

/-- C1: when a trial policy exists for the drug, `reason_codes` is built in
exactly the order age-below, age-above, diagnosis, missing prior treatments,
then one entry per matched exclusion criterion in store order; the status is
NOT_APPROVED iff any reason code exists, and is never CONDITIONAL. -/
theorem trial_reason_order (store : List (String × TrialPolicy))
    (drug diagnosis : String) (age : Int) (prior : List String)
    (policy : TrialPolicy) (hfind : lookup store drug = some policy) :
    ∃ tc : TrialEnablementCard,
      (evaluate_trial_eligibility store drug diagnosis age prior).card =
        Card.trial tc ∧
      tc.reason_codes =
        (if age < policy.min_age then
          ["AGE_BELOW_MIN:" ++ toString policy.min_age] else [])
        ++ (if age > policy.max_age then
          ["AGE_ABOVE_MAX:" ++ toString policy.max_age] else [])
        ++ (if diagnosis ∈ policy.eligible_diagnoses then []
            else ["DIAGNOSIS_NOT_ELIGIBLE:" ++ diagnosis])
        ++ (if ∀ r ∈ policy.required_prior_treatments, r ∈ prior then []
            else ["MISSING_PRIOR_TREATMENT:"
              ++ String.intercalate ","
                  (missingPrior policy.required_prior_treatments prior)])
        ++ (policy.exclusion_criteria.filter (matchesExclusion diagnosis prior)).map
            (fun e => "EXCLUSION_CRITERIA:" ++ e) ∧
      tc.status = (if tc.reason_codes = [] then "APPROVED" else "NOT_APPROVED") ∧
      tc.status ≠ "CONDITIONAL" := by
  obtain ⟨tc, henv, -, -, hflags, hcodes, hstatus⟩ :=
    trial_eval_fields store drug diagnosis age prior policy hfind
  refine ⟨tc, by rw [henv], ?_, hstatus, ?_⟩
  · rw [hcodes, hflags]
    simp only [missingPrior_eq_nil_iff]
  · rw [hstatus]
    split_ifs <;> decide

/-- The trial record of the worked example in the specification:
min_age 18, max_age 65, eligible diagnosis hypertension. -/
def examplePolicy : TrialPolicy :=
  { min_age := 18
    max_age := 65
    eligible_diagnoses := ["hypertension"]
    required_prior_treatments := []
    exclusion_criteria := []
    required_documents := [] }

/-- The trial table holding only the worked example record. -/
def exampleTrialStore : List (String × TrialPolicy) := [("Ciplar", examplePolicy)]

/-- Witness for C1 at the worked example: age 70 against the 18–65 record
yields NOT_APPROVED with reason codes exactly [AGE_ABOVE_MAX:65]. -/
theorem trial_reason_order_witness :
    lookup exampleTrialStore "Ciplar" = some examplePolicy ∧
    (∃ tc : TrialEnablementCard,
      (evaluate_trial_eligibility exampleTrialStore "Ciplar" "hypertension" 70 []).card =
        Card.trial tc ∧ tc.status ≠ "CONDITIONAL") ∧
    (evaluate_trial_eligibility exampleTrialStore "Ciplar" "hypertension" 70 []).card =
      Card.trial
        { drug_name := "Ciplar"
          status := "NOT_APPROVED"
          reason_codes := ["AGE_ABOVE_MAX:65"]
          required_documents := []
          exclusion_flags := [] } := by
  refine ⟨rfl, ?_, by decide⟩
  obtain ⟨tc, h1, -, -, h4⟩ :=
    trial_reason_order exampleTrialStore "Ciplar" "hypertension" 70 []
      examplePolicy rfl
  exact ⟨tc, h1, h4⟩

/-- The exclusion test of the source: case-insensitive substring of the
diagnosis, or case-insensitive EQUALITY with some prior treatment. -/
theorem matchesExclusion_iff (diagnosis : String) (prior : List String)
    (e : String) :
    matchesExclusion diagnosis prior e = true ↔
      (∃ l r, (lowerStr diagnosis).data = l ++ (lowerStr e).data ++ r) ∨
      (∃ p ∈ prior, lowerStr p = lowerStr e) := by
  unfold matchesExclusion
  simp [strContains_iff, List.mem_map]

/-- C2 amended: each exclusion criterion, in store order, is flagged and its
reason code appended iff it is a case-insensitive substring of the diagnosis
OR case-insensitively EQUAL to some entry of prior_treatments. -/
theorem exclusion_match_rule (store : List (String × TrialPolicy))
    (drug diagnosis : String) (age : Int) (prior : List String)
    (policy : TrialPolicy) (hfind : lookup store drug = some policy) :
    ∃ tc : TrialEnablementCard,
      (evaluate_trial_eligibility store drug diagnosis age prior).card =
        Card.trial tc ∧
      tc.exclusion_flags =
        policy.exclusion_criteria.filter (matchesExclusion diagnosis prior) ∧
      (∀ e, matchesExclusion diagnosis prior e = true ↔
        (∃ l r, (lowerStr diagnosis).data = l ++ (lowerStr e).data ++ r) ∨
        (∃ p ∈ prior, lowerStr p = lowerStr e)) ∧
      ∃ pre, tc.reason_codes =
        pre ++ tc.exclusion_flags.map (fun e => "EXCLUSION_CRITERIA:" ++ e) := by
  obtain ⟨tc, henv, -, -, hflags, hcodes, -⟩ :=
    trial_eval_fields store drug diagnosis age prior policy hfind
  exact ⟨tc, by rw [henv], hflags,
    fun e => matchesExclusion_iff diagnosis prior e, ⟨_, hcodes⟩⟩



/-- A trial record whose exclusion criterion "preg" is a proper substring of
the prior treatment "pregnancy" below. -/
def substringCexPolicy : TrialPolicy :=
  { min_age := 18
    max_age := 99
    eligible_diagnoses := ["influenza"]
    required_prior_treatments := []
    exclusion_criteria := ["preg"]
    required_documents := [] }

/-- Trial table for the C2 counterexample. -/
def substringCexStore : List (String × TrialPolicy) :=
  [("Azee", substringCexPolicy)]

/-- C2 counterexample: "preg" IS a case-insensitive substring of the prior
treatment "pregnancy" (the claim predicts an exclusion flag and reason code),
yet the code flags nothing: Python list membership is equality, not substring
containment. -/
theorem exclusion_substring_cex :
    (∃ l r, (lowerStr "pregnancy").data = l ++ (lowerStr "preg").data ++ r) ∧
    "preg" ∈ substringCexPolicy.exclusion_criteria ∧
    (evaluate_trial_eligibility substringCexStore "Azee" "influenza" 30
        ["pregnancy"]).card =
      Card.trial
        { drug_name := "Azee"
          status := "APPROVED"
          reason_codes := []
          required_documents := []
          exclusion_flags := [] } :=
  ⟨⟨[], "nancy".data, by decide⟩, by decide, by decide⟩

/-- A trial record whose exclusion criterion matches a prior treatment by
case-insensitive equality. -/
def equalityPolicy : TrialPolicy :=
  { min_age := 18
    max_age := 99
    eligible_diagnoses := ["influenza"]
    required_prior_treatments := []
    exclusion_criteria := ["chemotherapy"]
    required_documents := [] }

/-- Trial table for the C2 witness. -/
def equalityStore : List (String × TrialPolicy) := [("Montair", equalityPolicy)]

/-- Witness for C2 amended: a criterion equal (case-insensitively) to a prior
treatment is flagged and its reason code appended. -/
theorem exclusion_match_rule_witness :
    lookup equalityStore "Montair" = some equalityPolicy ∧
    (∃ tc : TrialEnablementCard,
      (evaluate_trial_eligibility equalityStore "Montair" "influenza" 30
          ["Chemotherapy"]).card = Card.trial tc ∧
      tc.exclusion_flags =
        equalityPolicy.exclusion_criteria.filter
          (matchesExclusion "influenza" ["Chemotherapy"]) ∧
      (∀ e, matchesExclusion "influenza" ["Chemotherapy"] e = true ↔
        (∃ l r, (lowerStr "influenza").data = l ++ (lowerStr e).data ++ r) ∨
        (∃ p ∈ (["Chemotherapy"] : List String), lowerStr p = lowerStr e)) ∧
      ∃ pre, tc.reason_codes =
        pre ++ tc.exclusion_flags.map (fun e => "EXCLUSION_CRITERIA:" ++ e)) ∧
    (evaluate_trial_eligibility equalityStore "Montair" "influenza" 30
        ["Chemotherapy"]).card =
      Card.trial
        { drug_name := "Montair"
          status := "NOT_APPROVED"
          reason_codes := ["EXCLUSION_CRITERIA:chemotherapy"]
          required_documents := []
          exclusion_flags := ["chemotherapy"] } :=
  ⟨rfl,
   exclusion_match_rule equalityStore "Montair" "influenza" 30 ["Chemotherapy"]
     equalityPolicy rfl,
   by decide⟩

theorem excl_tag_ne_age_below (e s : String) :
    "EXCLUSION_CRITERIA:" ++ e ≠ "AGE_BELOW_MIN:" ++ s :=
  ne_append_of_head_ne e s 'E' 'A' _ _ rfl rfl (by decide)

theorem excl_tag_ne_age_above (e s : String) :
    "EXCLUSION_CRITERIA:" ++ e ≠ "AGE_ABOVE_MAX:" ++ s :=
  ne_append_of_head_ne e s 'E' 'A' _ _ rfl rfl (by decide)

theorem excl_tag_ne_diagnosis (e s : String) :
    "EXCLUSION_CRITERIA:" ++ e ≠ "DIAGNOSIS_NOT_ELIGIBLE:" ++ s :=
  ne_append_of_head_ne e s 'E' 'D' _ _ rfl rfl (by decide)

theorem excl_tag_ne_missing (e s : String) :
    "EXCLUSION_CRITERIA:" ++ e ≠ "MISSING_PRIOR_TREATMENT:" ++ s :=
  ne_append_of_head_ne e s 'E' 'M' _ _ rfl rfl (by decide)

/-- C10: exclusion_flags is exactly the list of criteria, in store order,
whose EXCLUSION_CRITERIA reason code appears in reason_codes; the reason
codes end with the tags of the flags in lockstep; non-empty flags force
NOT_APPROVED. -/
theorem exclusion_lockstep (store : List (String × TrialPolicy))
    (drug diagnosis : String) (age : Int) (prior : List String)
    (policy : TrialPolicy) (hfind : lookup store drug = some policy) :
    ∃ tc : TrialEnablementCard,
      (evaluate_trial_eligibility store drug diagnosis age prior).card =
        Card.trial tc ∧
      tc.exclusion_flags = policy.exclusion_criteria.filter
        (fun e => decide (("EXCLUSION_CRITERIA:" ++ e) ∈ tc.reason_codes)) ∧
      (∃ pre, tc.reason_codes =
        pre ++ tc.exclusion_flags.map (fun e => "EXCLUSION_CRITERIA:" ++ e)) ∧
      (tc.exclusion_flags ≠ [] → tc.status = "NOT_APPROVED") := by
  obtain ⟨tc, henv, -, -, hflags, hcodes, hstatus⟩ :=
    trial_eval_fields store drug diagnosis age prior policy hfind
  have hmem : ∀ e, ("EXCLUSION_CRITERIA:" ++ e) ∈ tc.reason_codes ↔
      e ∈ tc.exclusion_flags := by
    intro e
    rw [hcodes]
    simp only [List.mem_append, List.mem_map]
    constructor
    · rintro ((((hm | hm) | hm) | hm) | ⟨a, ha, hae⟩)
      · split_ifs at hm <;> simp at hm
        exact absurd hm (excl_tag_ne_age_below e _)
      · split_ifs at hm <;> simp at hm
        exact absurd hm (excl_tag_ne_age_above e _)
      · split_ifs at hm <;> simp at hm
        exact absurd hm (excl_tag_ne_diagnosis e _)
      · split_ifs at hm <;> simp at hm
        exact absurd hm (excl_tag_ne_missing e _)
      · rwa [String.append_left_cancel_data hae] at ha
    · intro hf
      exact Or.inr ⟨e, hf, rfl⟩
  refine ⟨tc, by rw [henv], ?_, ⟨_, hcodes⟩, ?_⟩
  · rw [hflags]
    refine (List.filter_congr ?_).symm
    intro a ha
    simp [hmem a, hflags, List.mem_filter, ha]
  · intro hne
    rw [hstatus]
    have hnonnil : tc.reason_codes ≠ [] := by
      rw [hcodes]
      simp [hne]
    simp [hnonnil]



/-- A trial record whose exclusion criterion "smoking" matches a prior
treatment exactly. -/
def lockstepPolicy : TrialPolicy :=
  { min_age := 18
    max_age := 99
    eligible_diagnoses := ["asthma"]
    required_prior_treatments := []
    exclusion_criteria := ["smoking"]
    required_documents := ["consent_form"] }

/-- Trial table for the C10 witness. -/
def lockstepStore : List (String × TrialPolicy) := [("Duolin", lockstepPolicy)]

/-- Witness for C10 at a concrete input with one matched exclusion. -/
theorem exclusion_lockstep_witness :
    lookup lockstepStore "Duolin" = some lockstepPolicy ∧
    (∃ tc : TrialEnablementCard,
      (evaluate_trial_eligibility lockstepStore "Duolin" "asthma" 40
          ["smoking"]).card = Card.trial tc ∧
      tc.exclusion_flags = lockstepPolicy.exclusion_criteria.filter
        (fun e => decide (("EXCLUSION_CRITERIA:" ++ e) ∈ tc.reason_codes)) ∧
      (∃ pre, tc.reason_codes =
        pre ++ tc.exclusion_flags.map (fun e => "EXCLUSION_CRITERIA:" ++ e)) ∧
      (tc.exclusion_flags ≠ [] → tc.status = "NOT_APPROVED")) ∧
    (evaluate_trial_eligibility lockstepStore "Duolin" "asthma" 40
        ["smoking"]).card =
      Card.trial
        { drug_name := "Duolin"
          status := "NOT_APPROVED"
          reason_codes := ["EXCLUSION_CRITERIA:smoking"]
          required_documents := ["consent_form"]
          exclusion_flags := ["smoking"] } :=
  ⟨rfl,
   exclusion_lockstep lockstepStore "Duolin" "asthma" 40 ["smoking"]
     lockstepPolicy rfl,
   by decide⟩

set_option maxHeartbeats 1600000 in
/-- Field-level description of the reimbursement evaluation when a policy is
found. -/
theorem reimb_eval_fields (store : List (String × ReimbPolicy))
    (drug diagnosis insurance_type : String) (claim_amount : ℚ)
    (policy : ReimbPolicy) (hfind : lookup store drug = some policy) :
    ∃ rc : ReimbursementStatusCard,
      (evaluate_reimbursement store drug diagnosis insurance_type claim_amount) =
        { card_type := "reimbursement_status_card", card := Card.reimb rc } ∧
      rc.drug_name = drug ∧
      rc.coverage_percent =
        ((resolvedCoverage policy insurance_type).1 : ℚ) ∧
      rc.approved_amount =
        min (claim_amount * (((resolvedCoverage policy insurance_type).1 : ℚ) / 100))
          ((resolvedCoverage policy insurance_type).2 : ℚ) ∧
      rc.reason_codes =
        (if diagnosis ∈ policy.eligible_diagnoses then []
          else ["DIAGNOSIS_NOT_COVERED:" ++ diagnosis])
        ++ (if (lookup policy.insurance_coverage insurance_type).isNone then
          ["INSURANCE_TYPE_UNKNOWN:" ++ insurance_type] else [])
        ++ (if (resolvedCoverage policy insurance_type).1 = 0 then
          ["NO_COVERAGE"] else [])
        ++ (if claim_amount > ((resolvedCoverage policy insurance_type).2 : ℚ)
              ∧ (resolvedCoverage policy insurance_type).2 > 0 then
          ["CLAIM_EXCEEDS_MAX:"
            ++ toString (resolvedCoverage policy insurance_type).2] else []) ∧
      rc.status =
        (if (resolvedCoverage policy insurance_type).1 = 0
            ∨ rc.reason_codes.any
                (fun code => strContains code "DIAGNOSIS_NOT_COVERED") then
          "NOT_APPROVED"
        else if rc.reason_codes = [] then "APPROVED"
        else "CONDITIONAL") := by
  simp only [evaluate_reimbursement, hfind]
  refine ⟨_, rfl, rfl, rfl, (min_def _ _).symm, ?_, ?_⟩
  all_goals split_ifs <;> simp_all



/-- C5: reimbursement status priority — NOT_APPROVED on zero coverage or any
reason code carrying DIAGNOSIS_NOT_COVERED; else CONDITIONAL when reason
codes exist; else APPROVED. -/
theorem reimb_status_priority (store : List (String × ReimbPolicy))
    (drug diagnosis insurance_type : String) (claim_amount : ℚ)
    (policy : ReimbPolicy) (hfind : lookup store drug = some policy) :
    ∃ rc : ReimbursementStatusCard,
      (evaluate_reimbursement store drug diagnosis insurance_type
        claim_amount).card = Card.reimb rc ∧
      (rc.status = "NOT_APPROVED" ↔ rc.coverage_percent = 0 ∨
        ∃ code ∈ rc.reason_codes,
          strContains code "DIAGNOSIS_NOT_COVERED" = true) ∧
      (rc.status = "CONDITIONAL" ↔
        ¬(rc.coverage_percent = 0 ∨ ∃ code ∈ rc.reason_codes,
            strContains code "DIAGNOSIS_NOT_COVERED" = true) ∧
        rc.reason_codes ≠ []) ∧
      (rc.status = "APPROVED" ↔
        ¬(rc.coverage_percent = 0 ∨ ∃ code ∈ rc.reason_codes,
            strContains code "DIAGNOSIS_NOT_COVERED" = true) ∧
        rc.reason_codes = []) := by
  obtain ⟨rc, henv, -, hcov, -, -, hstatus⟩ :=
    reimb_eval_fields store drug diagnosis insurance_type claim_amount
      policy hfind
  refine ⟨rc, by rw [henv], ?_, ?_, ?_⟩ <;>
    rw [hstatus] <;>
    split_ifs with h1 h2 <;>
    simp_all [List.any_eq_true, hcov]



/-- Reimbursement record for the C5 witness: 85% corporate coverage capped
at 1000. -/
def cappedReimbPolicy : ReimbPolicy :=
  { eligible_diagnoses := ["hypertension"]
    insurance_coverage :=
      [("corporate", { coverage_percent := 85, max_amount := 1000 })] }

/-- Reimbursement table for the C5 witness. -/
def cappedReimbStore : List (String × ReimbPolicy) :=
  [("Ciplar", cappedReimbPolicy)]

theorem capped_eval :
    (evaluate_reimbursement cappedReimbStore "Ciplar" "hypertension"
        "corporate" 5000).card =
      Card.reimb
        { drug_name := "Ciplar"
          status := "CONDITIONAL"
          coverage_percent := 85
          approved_amount := 1000
          reason_codes := ["CLAIM_EXCEEDS_MAX:1000"] } := by
  obtain ⟨rc, henv, h1, h2, h3, h4, h5⟩ :=
    reimb_eval_fields cappedReimbStore "Ciplar" "hypertension" "corporate" 5000
      cappedReimbPolicy rfl
  have hres : resolvedCoverage cappedReimbPolicy "corporate" = (85, 1000) := rfl
  rw [hres] at h2 h3 h4 h5
  have hcodes : rc.reason_codes = ["CLAIM_EXCEEDS_MAX:1000"] := by
    rw [h4]
    norm_num [cappedReimbPolicy, lookup]
    decide
  rw [hcodes] at h5
  have hstat : rc.status = "CONDITIONAL" := by
    rw [h5]
    norm_num
    decide
  have happr : rc.approved_amount = 1000 := by
    rw [h3]
    norm_num
  have hcov : rc.coverage_percent = 85 := by
    rw [h2]
    norm_num
  rw [henv]
  exact congrArg Card.reimb
    (ReimbursementStatusCard.ext h1 hstat hcov happr hcodes)



/-- Witness for C5: claim 5000 against the 85%/1000-capped record yields
CONDITIONAL with approved_amount 1000 and reason code CLAIM_EXCEEDS_MAX:1000. -/
theorem reimb_status_priority_witness :
    lookup cappedReimbStore "Ciplar" = some cappedReimbPolicy ∧
    (∃ rc : ReimbursementStatusCard,
      (evaluate_reimbursement cappedReimbStore "Ciplar" "hypertension"
        "corporate" 5000).card = Card.reimb rc ∧
      (rc.status = "NOT_APPROVED" ↔ rc.coverage_percent = 0 ∨
        ∃ code ∈ rc.reason_codes,
          strContains code "DIAGNOSIS_NOT_COVERED" = true) ∧
      (rc.status = "CONDITIONAL" ↔
        ¬(rc.coverage_percent = 0 ∨ ∃ code ∈ rc.reason_codes,
            strContains code "DIAGNOSIS_NOT_COVERED" = true) ∧
        rc.reason_codes ≠ []) ∧
      (rc.status = "APPROVED" ↔
        ¬(rc.coverage_percent = 0 ∨ ∃ code ∈ rc.reason_codes,
            strContains code "DIAGNOSIS_NOT_COVERED" = true) ∧
        rc.reason_codes = [])) ∧
    (evaluate_reimbursement cappedReimbStore "Ciplar" "hypertension"
        "corporate" 5000).card =
      Card.reimb
        { drug_name := "Ciplar"
          status := "CONDITIONAL"
          coverage_percent := 85
          approved_amount := 1000
          reason_codes := ["CLAIM_EXCEEDS_MAX:1000"] } :=
  ⟨rfl,
   reimb_status_priority cappedReimbStore "Ciplar" "hypertension" "corporate"
     5000 cappedReimbPolicy rfl,
   capped_eval⟩

/-- C6: for a found policy with non-negative claim, coverage percent and cap,
the approved amount is `min(claim × percent/100, max_amount)`, never exceeds
the cap and is never negative. -/
theorem approved_amount_cap (store : List (String × ReimbPolicy))
    (drug diagnosis insurance_type : String) (claim_amount : ℚ)
    (policy : ReimbPolicy) (hfind : lookup store drug = some policy)
    (hclaim : 0 ≤ claim_amount)
    (hcov : 0 ≤ (resolvedCoverage policy insurance_type).1)
    (hmax : 0 ≤ (resolvedCoverage policy insurance_type).2) :
    ∃ rc : ReimbursementStatusCard,
      (evaluate_reimbursement store drug diagnosis insurance_type
        claim_amount).card = Card.reimb rc ∧
      rc.approved_amount =
        min (claim_amount * (((resolvedCoverage policy insurance_type).1 : ℚ) / 100))
          ((resolvedCoverage policy insurance_type).2 : ℚ) ∧
      rc.approved_amount ≤ ((resolvedCoverage policy insurance_type).2 : ℚ) ∧
      0 ≤ rc.approved_amount := by
  obtain ⟨rc, henv, -, -, happr, -, -⟩ :=
    reimb_eval_fields store drug diagnosis insurance_type claim_amount
      policy hfind
  refine ⟨rc, by rw [henv], happr, ?_, ?_⟩
  · rw [happr]
    exact min_le_right _ _
  · rw [happr]
    refine le_min (mul_nonneg hclaim (div_nonneg ?_ (by norm_num))) ?_
    · exact_mod_cast hcov
    · exact_mod_cast hmax

/-- Reimbursement record of the worked example: 85% corporate coverage capped
at 10000. -/
def corporateReimbPolicy : ReimbPolicy :=
  { eligible_diagnoses := ["hypertension"]
    insurance_coverage :=
      [("corporate", { coverage_percent := 85, max_amount := 10000 })] }

/-- Reimbursement table of the worked example. -/
def corporateReimbStore : List (String × ReimbPolicy) :=
  [("Tobaren", corporateReimbPolicy)]

theorem corporate_eval :
    (evaluate_reimbursement corporateReimbStore "Tobaren" "hypertension"
        "corporate" 5000).card =
      Card.reimb
        { drug_name := "Tobaren"
          status := "APPROVED"
          coverage_percent := 85
          approved_amount := 4250
          reason_codes := [] } := by
  obtain ⟨rc, henv, h1, h2, h3, h4, h5⟩ :=
    reimb_eval_fields corporateReimbStore "Tobaren" "hypertension" "corporate"
      5000 corporateReimbPolicy rfl
  have hres : resolvedCoverage corporateReimbPolicy "corporate" = (85, 10000) := rfl
  rw [hres] at h2 h3 h4 h5
  have hcodes : rc.reason_codes = [] := by
    rw [h4]
    norm_num [corporateReimbPolicy, lookup]
  rw [hcodes] at h5
  have hstat : rc.status = "APPROVED" := by
    rw [h5]
    norm_num
  have happr : rc.approved_amount = 4250 := by
    rw [h3]
    norm_num
  have hcov : rc.coverage_percent = 85 := by
    rw [h2]
    norm_num
  rw [henv]
  exact congrArg Card.reimb
    (ReimbursementStatusCard.ext h1 hstat hcov happr hcodes)

/-- Witness for C6 at the worked example: corporate 85%/10000 on a 5000 claim
gives APPROVED with coverage 85 and approved amount 4250. -/
theorem approved_amount_cap_witness :
    lookup corporateReimbStore "Tobaren" = some corporateReimbPolicy ∧
    (0 : ℚ) ≤ 5000 ∧
    0 ≤ (resolvedCoverage corporateReimbPolicy "corporate").1 ∧
    0 ≤ (resolvedCoverage corporateReimbPolicy "corporate").2 ∧
    (∃ rc : ReimbursementStatusCard,
      (evaluate_reimbursement corporateReimbStore "Tobaren" "hypertension"
        "corporate" 5000).card = Card.reimb rc ∧
      rc.approved_amount =
        min (5000 * (((resolvedCoverage corporateReimbPolicy "corporate").1 : ℚ) / 100))
          ((resolvedCoverage corporateReimbPolicy "corporate").2 : ℚ) ∧
      rc.approved_amount ≤
        ((resolvedCoverage corporateReimbPolicy "corporate").2 : ℚ) ∧
      0 ≤ rc.approved_amount) ∧
    (evaluate_reimbursement corporateReimbStore "Tobaren" "hypertension"
        "corporate" 5000).card =
      Card.reimb
        { drug_name := "Tobaren"
          status := "APPROVED"
          coverage_percent := 85
          approved_amount := 4250
          reason_codes := [] } :=
  ⟨rfl, by norm_num, by decide, by decide,
   approved_amount_cap corporateReimbStore "Tobaren" "hypertension" "corporate"
     5000 corporateReimbPolicy rfl (by norm_num) (by decide) (by decide),
   corporate_eval⟩

/-- C7: an insurance type absent from the coverage mapping yields coverage 0,
approved amount 0, both INSURANCE_TYPE_UNKNOWN and NO_COVERAGE reason codes,
and NOT_APPROVED; a present entry is used verbatim. -/
theorem insurance_type_resolution (store : List (String × ReimbPolicy))
    (drug diagnosis insurance_type : String) (claim_amount : ℚ)
    (policy : ReimbPolicy) (hfind : lookup store drug = some policy) :
    (lookup policy.insurance_coverage insurance_type = none →
      ∃ rc : ReimbursementStatusCard,
        (evaluate_reimbursement store drug diagnosis insurance_type
          claim_amount).card = Card.reimb rc ∧
        rc.coverage_percent = 0 ∧
        rc.approved_amount = 0 ∧
        ("INSURANCE_TYPE_UNKNOWN:" ++ insurance_type) ∈ rc.reason_codes ∧
        "NO_COVERAGE" ∈ rc.reason_codes ∧
        rc.status = "NOT_APPROVED") ∧
    (∀ ci : CoverageInfo,
      lookup policy.insurance_coverage insurance_type = some ci →
      ∃ rc : ReimbursementStatusCard,
        (evaluate_reimbursement store drug diagnosis insurance_type
          claim_amount).card = Card.reimb rc ∧
        rc.coverage_percent = (ci.coverage_percent : ℚ) ∧
        rc.approved_amount =
          min (claim_amount * ((ci.coverage_percent : ℚ) / 100))
            (ci.max_amount : ℚ)) := by
  obtain ⟨rc, henv, -, hcov, happr, hcodes, hstatus⟩ :=
    reimb_eval_fields store drug diagnosis insurance_type claim_amount
      policy hfind
  constructor
  · intro habsent
    have hres : resolvedCoverage policy insurance_type = (0, 0) := by
      unfold resolvedCoverage
      rw [habsent]
    rw [hres] at hcov happr hcodes hstatus
    refine ⟨rc, by rw [henv], by simpa using hcov, ?_, ?_, ?_, ?_⟩
    · rw [happr]
      norm_num
    · rw [hcodes]
      simp [habsent]
    · rw [hcodes]
      simp [habsent]
    · rw [hstatus]
      simp
  · intro ci hpresent
    have hres : resolvedCoverage policy insurance_type =
        (ci.coverage_percent, ci.max_amount) := by
      unfold resolvedCoverage
      rw [hpresent]
    rw [hres] at hcov happr
    exact ⟨rc, by rw [henv], hcov, happr⟩



theorem unknown_type_eval :
    (evaluate_reimbursement corporateReimbStore "Tobaren" "hypertension"
        "uninsured" 5000).card =
      Card.reimb
        { drug_name := "Tobaren"
          status := "NOT_APPROVED"
          coverage_percent := 0
          approved_amount := 0
          reason_codes := ["INSURANCE_TYPE_UNKNOWN:uninsured", "NO_COVERAGE"] } := by
  obtain ⟨rc, henv, h1, h2, h3, h4, h5⟩ :=
    reimb_eval_fields corporateReimbStore "Tobaren" "hypertension" "uninsured"
      5000 corporateReimbPolicy rfl
  have hres : resolvedCoverage corporateReimbPolicy "uninsured" = (0, 0) := rfl
  rw [hres] at h2 h3 h4 h5
  have hcodes : rc.reason_codes =
      ["INSURANCE_TYPE_UNKNOWN:uninsured", "NO_COVERAGE"] := by
    rw [h4]
    norm_num [corporateReimbPolicy, lookup]
    decide
  rw [hcodes] at h5
  have hstat : rc.status = "NOT_APPROVED" := by
    rw [h5]
    norm_num
  have happr : rc.approved_amount = 0 := by
    rw [h3]
    norm_num
  have hcov : rc.coverage_percent = 0 := by
    rw [h2]
    norm_num
  rw [henv]
  exact congrArg Card.reimb
    (ReimbursementStatusCard.ext h1 hstat hcov happr hcodes)

/-- Witness for C7: insurance type "uninsured" is absent from the corporate
record, giving zero coverage, both reason codes and NOT_APPROVED. -/
theorem insurance_type_resolution_witness :
    lookup corporateReimbStore "Tobaren" = some corporateReimbPolicy ∧
    lookup corporateReimbPolicy.insurance_coverage "uninsured" = none ∧
    (∃ rc : ReimbursementStatusCard,
      (evaluate_reimbursement corporateReimbStore "Tobaren" "hypertension"
        "uninsured" 5000).card = Card.reimb rc ∧
      rc.coverage_percent = 0 ∧
      rc.approved_amount = 0 ∧
      ("INSURANCE_TYPE_UNKNOWN:" ++ "uninsured") ∈ rc.reason_codes ∧
      "NO_COVERAGE" ∈ rc.reason_codes ∧
      rc.status = "NOT_APPROVED") ∧
    (evaluate_reimbursement corporateReimbStore "Tobaren" "hypertension"
        "uninsured" 5000).card =
      Card.reimb
        { drug_name := "Tobaren"
          status := "NOT_APPROVED"
          coverage_percent := 0
          approved_amount := 0
          reason_codes := ["INSURANCE_TYPE_UNKNOWN:uninsured", "NO_COVERAGE"] } :=
  ⟨rfl, rfl,
   (insurance_type_resolution corporateReimbStore "Tobaren" "hypertension"
     "uninsured" 5000 corporateReimbPolicy rfl).1 rfl,
   unknown_type_eval⟩

/-- C8: a drug absent from the relevant table yields a refusal card (not a
status card), with violation_type no_policy and the drug name embedded in the
reason text; no default approve/deny evaluation is produced. -/
theorem no_policy_refusal (trial_store : List (String × TrialPolicy))
    (reimb_store : List (String × ReimbPolicy))
    (drug diagnosis insurance_type : String) (age : Int)
    (prior : List String) (claim_amount : ℚ)
    (ht : lookup trial_store drug = none)
    (hr : lookup reimb_store drug = none) :
    evaluate_trial_eligibility trial_store drug diagnosis age prior =
      { card_type := "refusal_card"
        card := Card.refusal
          { blocked := true
            reason := "No trial policy found for \x27" ++ drug ++ "\x27."
            violation_type := "no_policy" } } ∧
    evaluate_reimbursement reimb_store drug diagnosis insurance_type
        claim_amount =
      { card_type := "refusal_card"
        card := Card.refusal
          { blocked := true
            reason := "No reimbursement policy found for \x27" ++ drug ++ "\x27."
            violation_type := "no_policy" } } ∧
    (∃ pre post : String,
      "No trial policy found for \x27" ++ drug ++ "\x27." =
        pre ++ drug ++ post) ∧
    (∃ pre post : String,
      "No reimbursement policy found for \x27" ++ drug ++ "\x27." =
        pre ++ drug ++ post) ∧
    ("refusal_card" : String) ≠ "trial_enablement_card" ∧
    ("refusal_card" : String) ≠ "reimbursement_status_card" := by
  refine ⟨?_, ?_, ⟨_, _, rfl⟩, ⟨_, _, rfl⟩, by decide, by decide⟩
  · simp only [evaluate_trial_eligibility, ht]
  · simp only [evaluate_reimbursement, hr]

/-- Witness for C8 at empty tables. -/
theorem no_policy_refusal_witness :
    lookup ([] : List (String × TrialPolicy)) "Foracort" = none ∧
    lookup ([] : List (String × ReimbPolicy)) "Foracort" = none ∧
    evaluate_trial_eligibility [] "Foracort" "asthma" 40 [] =
      { card_type := "refusal_card"
        card := Card.refusal
          { blocked := true
            reason := "No trial policy found for \x27" ++ "Foracort" ++ "\x27."
            violation_type := "no_policy" } } ∧
    evaluate_reimbursement [] "Foracort" "asthma" "corporate" 100 =
      { card_type := "refusal_card"
        card := Card.refusal
          { blocked := true
            reason := "No reimbursement policy found for \x27" ++ "Foracort"
              ++ "\x27."
            violation_type := "no_policy" } } :=
  ⟨rfl, rfl,
   (no_policy_refusal [] [] "Foracort" "asthma" "corporate" 40 [] 100
     rfl rfl).1,
   (no_policy_refusal [] [] "Foracort" "asthma" "corporate" 40 [] 100
     rfl rfl).2.1⟩

/-- C9: with the module-level policy cache made explicit, two successive calls
to either evaluator with identical arguments and no reload in between return
identical results — evaluation is a pure function of the loaded table and the
request. -/
theorem eval_deterministic (fileContent : Policies) (cache : Option Policies)
    (drug diagnosis insurance_type : String) (age : Int)
    (prior : List String) (claim_amount : ℚ) :
    ((evaluate_trial_stateful fileContent
        ((evaluate_trial_stateful fileContent cache drug diagnosis age
          prior).2) drug diagnosis age prior).1 =
      (evaluate_trial_stateful fileContent cache drug diagnosis age
        prior).1) ∧
    ((evaluate_reimbursement_stateful fileContent
        ((evaluate_reimbursement_stateful fileContent cache drug diagnosis
          insurance_type claim_amount).2) drug diagnosis insurance_type
        claim_amount).1 =
      (evaluate_reimbursement_stateful fileContent cache drug diagnosis
        insurance_type claim_amount).1) := by
  cases cache <;> exact ⟨rfl, rfl⟩

/-- Policies document holding a trial record only — the drug is absent from
the reimbursement table. -/
def trialOnlyPolicies : Policies :=
  { trial_policies := [("Seroflo", examplePolicy)]
    reimbursement_policies := [] }

/-- C3: for a drug present in exactly one of the two tables, the claim says
`generate_report` returns an outcome; the code instead rebuilds a
`ReimbursementStatusCard` from the dumped refusal dict and raises a pydantic
ValidationError — modelled as the error branch. -/
theorem report_one_table_fault :
    (lookup trialOnlyPolicies.trial_policies "Seroflo").isSome = true ∧
    lookup trialOnlyPolicies.reimbursement_policies "Seroflo" = none ∧
    generate_report trialOnlyPolicies "Seroflo" "hypertension" 30 "corporate"
      100 [] "2026-10-12T00:00:00+00:00" = Except.error "ValidationError" :=
  ⟨rfl, rfl, rfl⟩

/-- C4 amended: the no-policy refusal is returned, without running either
sub-evaluator, exactly when the drug is in neither table; with records in
both tables the two evaluations run independently and are packaged with the
summary string and the caller-supplied timestamp; with a record in exactly
one table the packaging step faults. -/
theorem report_short_circuit (P : Policies) (drug diagnosis : String)
    (age : Int) (insurance_type : String) (claim_amount : ℚ)
    (prior : List String) (now : String) :
    (lookup P.trial_policies drug = none ∧
        lookup P.reimbursement_policies drug = none →
      generate_report P drug diagnosis age insurance_type claim_amount
          prior now =
        .ok
          { card_type := "refusal_card"
            card := Card.refusal
              { blocked := true
                reason := "No policies found for \x27" ++ drug ++ "\x27."
                violation_type := "no_policy" } }) ∧
    (∀ tp rp, lookup P.trial_policies drug = some tp →
        lookup P.reimbursement_policies drug = some rp →
      ∃ (tc : TrialEnablementCard) (rc : ReimbursementStatusCard),
        (evaluate_trial_eligibility P.trial_policies drug diagnosis age
          prior).card = Card.trial tc ∧
        (evaluate_reimbursement P.reimbursement_policies drug diagnosis
          insurance_type claim_amount).card = Card.reimb rc ∧
        generate_report P drug diagnosis age insurance_type claim_amount
            prior now =
          .ok
            { card_type := "policy_report_card"
              card := Card.report
                { trial_eligibility := tc
                  reimbursement := rc
                  generated_at := now
                  summary := report_summary drug tc rc } }) ∧
    ((lookup P.trial_policies drug).isSome ≠
        (lookup P.reimbursement_policies drug).isSome →
      generate_report P drug diagnosis age insurance_type claim_amount
        prior now = .error "ValidationError") := by
  refine ⟨?_, ?_, ?_⟩
  · rintro ⟨h1, h2⟩
    simp [generate_report, h1, h2]
  · intro tp rp h1 h2
    obtain ⟨tc, htc, -, -, -, -, -⟩ :=
      trial_eval_fields P.trial_policies drug diagnosis age prior tp h1
    obtain ⟨rc, hrc, -, -, -, -, -⟩ :=
      reimb_eval_fields P.reimbursement_policies drug diagnosis insurance_type
        claim_amount rp h2
    refine ⟨tc, rc, by rw [htc], by rw [hrc], ?_⟩
    simp [generate_report, h1, h2, htc, hrc]
  · intro hne
    rcases htl : lookup P.trial_policies drug with _ | tp
    · rcases hrl : lookup P.reimbursement_policies drug with _ | rp
      · rw [htl, hrl] at hne
        simp at hne
      · have htrial : evaluate_trial_eligibility P.trial_policies drug
            diagnosis age prior =
            { card_type := "refusal_card"
              card := Card.refusal
                { blocked := true
                  reason := "No trial policy found for \x27" ++ drug ++ "\x27."
                  violation_type := "no_policy" } } := by
          simp only [evaluate_trial_eligibility, htl]
        obtain ⟨rc, hrc, -, -, -, -, -⟩ :=
          reimb_eval_fields P.reimbursement_policies drug diagnosis
            insurance_type claim_amount rp hrl
        simp [generate_report, htl, hrl, htrial, hrc]
    · rcases hrl : lookup P.reimbursement_policies drug with _ | rp
      · have hreimb : evaluate_reimbursement P.reimbursement_policies drug
            diagnosis insurance_type claim_amount =
            { card_type := "refusal_card"
              card := Card.refusal
                { blocked := true
                  reason := "No reimbursement policy found for \x27" ++ drug
                    ++ "\x27."
                  violation_type := "no_policy" } } := by
          simp only [evaluate_reimbursement, hrl]
        obtain ⟨tc, htc, -, -, -, -, -⟩ :=
          trial_eval_fields P.trial_policies drug diagnosis age prior tp htl
        simp [generate_report, htl, hrl, htc, hreimb]
      · rw [htl, hrl] at hne
        simp at hne



/-- Policies document holding records for the same drug in both tables. -/
def fullPolicies : Policies :=
  { trial_policies := [("Urimax", examplePolicy)]
    reimbursement_policies := [("Urimax", corporateReimbPolicy)] }

/-- Witness for C4 amended, at a drug present in both tables. -/
theorem report_short_circuit_witness :
    lookup fullPolicies.trial_policies "Urimax" = some examplePolicy ∧
    lookup fullPolicies.reimbursement_policies "Urimax" =
      some corporateReimbPolicy ∧
    (∃ (tc : TrialEnablementCard) (rc : ReimbursementStatusCard),
      (evaluate_trial_eligibility fullPolicies.trial_policies "Urimax"
        "hypertension" 40 []).card = Card.trial tc ∧
      (evaluate_reimbursement fullPolicies.reimbursement_policies "Urimax"
        "hypertension" "corporate" 500).card = Card.reimb rc ∧
      generate_report fullPolicies "Urimax" "hypertension" 40 "corporate"
          500 [] "2026-10-12T00:00:00+00:00" =
        .ok
          { card_type := "policy_report_card"
            card := Card.report
              { trial_eligibility := tc
                reimbursement := rc
                generated_at := "2026-10-12T00:00:00+00:00"
                summary := report_summary "Urimax" tc rc } }) :=
  ⟨rfl, rfl,
   (report_short_circuit fullPolicies "Urimax" "hypertension" 40 "corporate"
     500 [] "2026-10-12T00:00:00+00:00").2.1 examplePolicy
     corporateReimbPolicy rfl rfl⟩

/-- Policies document holding a reimbursement record only. -/
def reimbOnlyPolicies : Policies :=
  { trial_policies := []
    reimbursement_policies := [("Dytor", corporateReimbPolicy)] }

/-- C4 counterexample: for a drug present in the reimbursement table only,
the claim as stated predicts that both evaluations are packaged into a
report; the code instead faults when it rebuilds the typed trial card from
the refusal dict. -/
theorem report_packaging_cex :
    lookup reimbOnlyPolicies.trial_policies "Dytor" = none ∧
    (lookup reimbOnlyPolicies.reimbursement_policies "Dytor").isSome = true ∧
    generate_report reimbOnlyPolicies "Dytor" "hypertension" 30 "corporate"
      100 [] "2026-10-12T00:00:00+00:00" = Except.error "ValidationError" :=
  ⟨rfl, rfl, rfl⟩

end PolicyEngine
